import Mathlib

/-!
Verification of the stream-analytics traffic classifier.

Shallow embedding of the three source modules:
  * `tcp_analyzers.py` (`LBNLAnalyzer`): line parsing, fixed-range and
    quantile classification, anomaly detection, statistics.
  * `vfdt.py` (`VFDTClassifier`): fixed-range mask classification.
  * `on_demand.py` is a single library call (K-means) and is not needed by
    any claim.

Numeric conventions: packet counts are `Int` (Python `int(float(...))`),
fractional library arithmetic (quantiles, means) is `ℚ`.  The IEEE value
`float('inf')` appearing as an upper bound is modelled as `none` in an
`Option ℚ` ("no finite upper bound"), matching the fact that every finite
float compares strictly below `inf`.  A raised Python exception is modelled
as `Except.error` / a `Bool` flag; `pandas` NaN results are modelled as
`none`.
-/

/-- A parsed record: one line of `rwcount` output.  `timestamp` models the
`pd.to_datetime` value by its ordinal; `packets` is `int(float(parts[1]))`;
`bytes` is the optional third field. -/
structure Record where
  timestamp : ℕ
  packets : Int
  bytes : Option Int
deriving DecidableEq, Repr

/-- The tabular state built by `parse_rwcount_output` and mutated in place by
`classify_traffic` (`df['traffic_class'] = ...` adds a column to the caller's
frame).  The two classification columns are `none` until assigned.  A
`traffic_class` entry is `none` where `pd.cut` produced `NaN`. -/
structure DataFrame where
  rows : List Record
  traffic_class : Option (List (Option ℕ))
  vfdt_class : Option (List ℕ)
deriving DecidableEq, Repr

/- ------------------------------------------------------------------ -/
/- vfdt.py : VFDTClassifier                                            -/
/- ------------------------------------------------------------------ -/

/-- The numpy mask `(data >= low) & (data < high)` for one range
`(low, high)`; `high = none` models `float('inf')`, below which every
finite value lies. -/
def inVfdtRange (x : ℚ) (r : ℚ × Option ℚ) : Bool :=
  decide (r.1 ≤ x) && (match r.2 with | some hi => decide (x < hi) | none => true)

/-- The classification loop of `VFDTClassifier.classify`: `classes` starts at
`0` and `classes[mask] = i` overwrites the accumulator for each enumerated
range whose mask holds, later ranges winning. -/
def classifyFrom (x : ℚ) (acc : ℕ) : List (ℕ × (ℚ × Option ℚ)) → ℕ
  | [] => acc
  | (i, r) :: rest => classifyFrom x (if inVfdtRange x r then i else acc) rest

/-- The range table assigned by `VFDTClassifier.__init__`:
Very Low `[0,10)`, Low `[10,100)`, Medium `[100,500)`, High `[500,1000)`,
Very High `[1000, inf)`. -/
def vfdtDefaultRanges : List (ℚ × Option ℚ) :=
  [(0, some 10), (10, some 100), (100, some 500), (500, some 1000), (1000, none)]

/-- `VFDTClassifier`: its only state is `self.ranges`.  `__init__` performs a
plain assignment of the range table and nothing else (no validation), so the
constructor is the structure constructor `VFDTClassifier.mk`. -/
structure VFDTClassifier where
  ranges : List (ℚ × Option ℚ)
deriving DecidableEq, Repr

/-- The classifier object as built by `VFDTClassifier.__init__()`. -/
def VFDTClassifier.init : VFDTClassifier := ⟨vfdtDefaultRanges⟩

/-- `VFDTClassifier.classify` restricted to a single value: the enumerated
mask loop with accumulator starting at `0`. -/
def VFDTClassifier.classifyOne (c : VFDTClassifier) (x : ℚ) : ℕ :=
  classifyFrom x 0 c.ranges.enum

/-- `VFDTClassifier.classify` over a data vector (the numpy loop acts
pointwise). -/
def VFDTClassifier.classify (c : VFDTClassifier) (data : List ℚ) : List ℕ :=
  data.map c.classifyOne

/- ------------------------------------------------------------------ -/
/- tcp_analyzers.py : classify_traffic                                 -/
/- ------------------------------------------------------------------ -/

/-- The `ranges` list of `LBNLAnalyzer.classify_traffic`; the final
`float('inf')` upper bound is `none`. -/
def trafficRanges : List (ℚ × Option ℚ) :=
  [(0, some 600), (601, some 6000), (6001, some 60000), (60001, none)]

/-- The bin edges handed to `pd.cut`:
`bins=[r[0] for r in ranges] + [float('inf')]`, i.e.
`[0, 601, 6001, 60001, inf]` with `inf` modelled as `none`. -/
def trafficBins : List (Option ℚ) :=
  trafficRanges.map (fun r => some r.1) ++ [none]

/-- `pd.cut` interval search with default `right=True`,
`include_lowest=False`: value `x` belongs to interval `i` when
`bins[i] < x ≤ bins[i+1]`; a value in no interval gets `NaN` (`none`).
A lower edge of `inf` admits nothing; an upper edge of `inf` admits
everything. -/
def cutIdxAux (x : ℚ) (i : ℕ) : List (Option ℚ) → Option ℕ
  | lo :: hi :: rest =>
    if (match lo with | some l => decide (l < x) | none => false) &&
       (match hi with | some h => decide (x ≤ h) | none => true) then
      some i
    else
      cutIdxAux x (i + 1) (hi :: rest)
  | _ => none

/-- `pd.cut` label index for one value against a bin-edge list. -/
def cutIdx (bins : List (Option ℚ)) (x : ℚ) : Option ℕ :=
  cutIdxAux x 0 bins

/-- The labels of `classify_traffic`, positionally matching `cutIdx`
results. -/
def trafficLabels : List String := ["Low", "Medium", "High", "Very High"]

/- pd.qcut -/

/-- Insertion step of the sort used before taking empirical quantiles. -/
def insertQ (a : ℚ) : List ℚ → List ℚ
  | [] => [a]
  | b :: rest => if a ≤ b then a :: b :: rest else b :: insertQ a rest

/-- Ascending sort of the data, as `pd.qcut` quantile computation performs on
its input. -/
def sortQ (xs : List ℚ) : List ℚ := xs.foldr insertQ []

/-- Empirical quantile with linear interpolation (numpy default): for sorted
`ys` of length `n`, position `h = p * (n - 1)`, the value is
`ys[⌊h⌋] + (h - ⌊h⌋) * (ys[⌊h⌋ + 1] - ys[⌊h⌋])`. -/
def quantileLin (ys : List ℚ) (p : ℚ) : ℚ :=
  let n := ys.length
  let h := p * ((n : ℚ) - 1)
  let i := (⌊h⌋).toNat
  let lo := ys.getD i 0
  let hi := ys.getD (i + 1) lo
  lo + (h - (i : ℚ)) * (hi - lo)

/-- The probability points of `pd.qcut(x, q=4)`. -/
def quartilePoints : List ℚ := [0, 1/4, 1/2, 3/4, 1]

/-- Bucket assignment of `pd.qcut` for an in-range value against the five
quantile edges: right-closed intervals with the lowest edge included, so
bucket `0` is `[e0, e1]` and bucket `i > 0` is `(e_i, e_i+1]`. -/
def qcutIdx (edges : List ℚ) (v : ℚ) : ℕ :=
  if v ≤ edges.getD 1 0 then 0
  else if v ≤ edges.getD 2 0 then 1
  else if v ≤ edges.getD 3 0 then 2
  else 3

/-- `pd.qcut(xs, q=4, labels=['Q1','Q2','Q3','Q4'])`: compute the five
quartile edges of the data; if any two edges coincide, `pandas` raises
`ValueError: Bin edges must be unique` (modelled as `none`); otherwise every
value is assigned its bucket index. -/
def qcut4 (xs : List ℚ) : Option (List ℕ) :=
  let edges := quartilePoints.map (quantileLin (sortQ xs))
  if edges.Nodup then some (xs.map (qcutIdx edges)) else none

/-- `LBNLAnalyzer.classify_traffic`.  The column assignments
`df['traffic_class'] = pd.cut(...)` and `df['vfdt_class'] = pd.qcut(...)`
mutate the caller's frame in place; the returned pair is the caller's frame
after the call together with a flag that is `true` when `pd.qcut` raised
(in which case only the `traffic_class` column was added before the
exception escaped). -/
def classify_traffic (df : DataFrame) : DataFrame × Bool :=
  let tc := df.rows.map (fun r => cutIdx trafficBins (r.packets : ℚ))
  let df1 : DataFrame :=
    { rows := df.rows, traffic_class := some tc, vfdt_class := df.vfdt_class }
  match qcut4 (df.rows.map (fun r => (r.packets : ℚ))) with
  | some qs =>
    ({ rows := df1.rows, traffic_class := df1.traffic_class,
       vfdt_class := some qs }, false)
  | none => (df1, true)

/- ------------------------------------------------------------------ -/
/- tcp_analyzers.py : detect_anomalies                                 -/
/- ------------------------------------------------------------------ -/

/-- `self.config['anomaly_threshold']`. -/
def anomaly_threshold : Int := 1000

/-- `LBNLAnalyzer.detect_anomalies`: builds
`minute_threshold = self.anomaly_threshold * 60` and keeps the rows with
`df['packets'] > minute_threshold` (the returned frame carries exactly these
rows). -/
def detect_anomalies (threshold : Int) (df : DataFrame) : List Record :=
  df.rows.filter (fun r => decide (threshold * 60 < r.packets))

/- ------------------------------------------------------------------ -/
/- tcp_analyzers.py : calculate_statistics                             -/
/- ------------------------------------------------------------------ -/

/-- The statistics dictionary of `LBNLAnalyzer.calculate_statistics`.
`std_dev_sq` carries the sample variance (divisor `n - 1`, the `pandas`
`Series.std` default `ddof=1`) whose square root the source stores as
`std_dev_packets`; the root is kept implicit because it is irrational in
general, and is recovered through `sqrtEq`.  `std_dev_sq` and
`avg_packets_per_min` are `none` exactly where `pandas` yields `NaN`
(`std` of fewer than two values). -/
structure Stats where
  total_packets : Int
  total_bytes : Int
  avg_packets_per_min : ℚ
  max_packets_per_min : Int
  min_packets_per_min : Int
  std_dev_sq : Option ℚ
  total_minutes : ℕ
deriving DecidableEq, Repr

/-- `x` is the (nonnegative real) square root of `v`. -/
def sqrtEq (v x : ℚ) : Prop := 0 ≤ x ∧ x * x = v

/-- `LBNLAnalyzer.calculate_statistics`.  A frame built from an empty record
list has no `packets` column, so `df['packets']` raises `KeyError` — modelled
as `Except.error`.  On a nonempty frame the dictionary of sums, mean,
extrema, sample standard deviation and row count is returned. -/
def calculate_statistics (df : DataFrame) : Except String Stats :=
  if df.rows = [] then Except.error "KeyError: packets"
  else
    let ps := df.rows.map Record.packets
    let n : ℕ := ps.length
    let m : ℚ := ((ps.sum : ℚ)) / (n : ℚ)
    Except.ok
      { total_packets := ps.sum
        total_bytes :=
          if df.rows.any (fun r => r.bytes.isSome) then
            (df.rows.map (fun r => r.bytes.getD 0)).sum
          else 0
        avg_packets_per_min := m
        max_packets_per_min := ps.foldl max (ps.headD 0)
        min_packets_per_min := ps.foldl min (ps.headD 0)
        std_dev_sq :=
          if n < 2 then none
          else some ((ps.map (fun p => ((p : ℚ) - m) ^ 2)).sum / ((n : ℚ) - 1))
        total_minutes := df.rows.length }

/- ------------------------------------------------------------------ -/
/- tcp_analyzers.py : parse_rwcount_output                             -/
/- ------------------------------------------------------------------ -/

/-- The two external scalar parsers the line parser depends on:
`pd.to_datetime` (timestamps modelled by ordinals) and `float(...)`
(Python float literal parsing).  Both raise on bad input, modelled as
`none`.  The line-level logic below is proved for every choice of these. -/
structure LineParsers where
  to_datetime : List Char → Option ℕ
  to_float : List Char → Option ℚ

/-- Python `str.strip()`: drop leading and trailing whitespace. -/
def stripChars (s : List Char) : List Char :=
  ((s.dropWhile Char.isWhitespace).reverse.dropWhile Char.isWhitespace).reverse

/-- Python `str.split(sep)` for a one-character separator: splits on every
occurrence, keeping empty fields. -/
def splitOnChar (sep : Char) : List Char → List (List Char)
  | [] => [[]]
  | c :: rest =>
    match splitOnChar sep rest with
    | [] => [[c]]
    | g :: gs => if c = sep then [] :: g :: gs else (c :: g) :: gs

/-- Python `int(...)` applied to a float: truncation toward zero. -/
def truncQ (q : ℚ) : Int := if 0 ≤ q then ⌊q⌋ else ⌈q⌉

/-- One iteration of the parse loop of `parse_rwcount_output`: empty lines
and lines starting with `#` are passed over; otherwise the stripped line is
split on `|`; fewer than two fields appends nothing; a `to_datetime` or
`float` failure anywhere in the `try` block (including on the optional third
field) skips the line with a printed warning.  `some r` is an appended
record, `none` a skipped line. -/
def processLine (P : LineParsers) (line : List Char) : Option Record :=
  match line with
  | [] => none
  | c :: _ =>
    if c = '#' then none
    else
      let parts := splitOnChar '|' (stripChars line)
      if 2 ≤ parts.length then
        match P.to_datetime (stripChars (parts.getD 0 [])),
              P.to_float (stripChars (parts.getD 1 [])) with
        | some ts, some pk =>
          if 2 < parts.length then
            match P.to_float (stripChars (parts.getD 2 [])) with
            | some b => some ⟨ts, truncQ pk, some (truncQ b)⟩
            | none => none
          else some ⟨ts, truncQ pk, none⟩
        | _, _ => none
      else none

/-- The record accumulation of the parse loop over the split lines. -/
def parseRecords (P : LineParsers) (lines : List (List Char)) : List Record :=
  lines.filterMap (processLine P)

/-- Insertion step for the timestamp sort. -/
def insertByTs (r : Record) : List Record → List Record
  | [] => [r]
  | s :: rest => if r.timestamp ≤ s.timestamp then r :: s :: rest else s :: insertByTs r rest

/-- `df.sort_values('timestamp')`. -/
def sortByTs (l : List Record) : List Record := l.foldr insertByTs []

/-- `LBNLAnalyzer.parse_rwcount_output`: split the text on newlines, run the
parse loop, return `None` when no record parsed, else the frame of records
sorted by timestamp.  Only the records reach the caller: warnings about
skipped lines are printed, never returned. -/
def parse_rwcount_output (P : LineParsers) (output : List Char) : Option DataFrame :=
  let records := parseRecords P (splitOnChar '\n' output)
  if records.isEmpty then none
  else some { rows := sortByTs records, traffic_class := none, vfdt_class := none }

/- ------------------------------------------------------------------ -/
/- Concrete inputs for counterexamples and witnesses                   -/
/- ------------------------------------------------------------------ -/

/-- Digit-string value, for the concrete parser instantiation. -/
def digitsVal (s : List Char) : ℕ := s.foldl (fun a c => 10 * a + (c.toNat - 48)) 0

/-- A concrete decimal-digits parser: accepts nonempty all-digit strings. -/
def digitsToNat (s : List Char) : Option ℕ :=
  if s ≠ [] ∧ s.all Char.isDigit then some (digitsVal s) else none

/-- A concrete instantiation of the external scalar parsers, used to evaluate
closed statements about the line parser. -/
def P0 : LineParsers :=
  { to_datetime := digitsToNat
    to_float := fun s => (digitsToNat s).map (fun n => (n : ℚ)) }

/-- The spec example input for the anomaly detector: packet values
`[500, 1000, 1001, 2000]`. -/
def df4 : DataFrame :=
  { rows := [⟨0, 500, none⟩, ⟨1, 1000, none⟩, ⟨2, 1001, none⟩, ⟨3, 2000, none⟩]
    traffic_class := none
    vfdt_class := none }

/-- The spec example input for statistics: packet values `[10, 20, 30]`. -/
def df3 : DataFrame :=
  { rows := [⟨0, 10, none⟩, ⟨1, 20, none⟩, ⟨2, 30, none⟩]
    traffic_class := none
    vfdt_class := none }

/-- A fresh frame with four distinct packet values, fed to
`classify_traffic`. -/
def dfFresh : DataFrame :=
  { rows := [⟨0, 1, none⟩, ⟨1, 2, none⟩, ⟨2, 3, none⟩, ⟨3, 4, none⟩]
    traffic_class := none
    vfdt_class := none }

/-- A range table with gaps: `[10, 20)` and `[30, ∞)` are uncovered. -/
def gapRanges : List (ℚ × Option ℚ) := [(0, some 10), (20, some 30)]

/-- Parser input `"1|10"`. -/
def lineGood : List Char := ['1', '|', '1', '0']

/-- Parser input `"#c\nbad\n1|10\nx|y"`: a comment, a one-field line, the
good line, and a line whose timestamp field fails to parse. -/
def linesMixed : List Char :=
  ['#', 'c', '\n', 'b', 'a', 'd', '\n', '1', '|', '1', '0', '\n', 'x', '|', 'y']

/- ------------------------------------------------------------------ -/
/- Helper lemmas                                                       -/
/- ------------------------------------------------------------------ -/

/-- A pair drawn from an enumeration of a list has its payload in the
list. -/
lemma snd_mem_of_mem_enumFrom {α : Type} :
    ∀ {l : List α} {n : ℕ} {p : ℕ × α}, p ∈ List.enumFrom n l → p.2 ∈ l := by
  intro l
  induction l with
  | nil => intro n p h; simp [List.enumFrom] at h
  | cons a as ih =>
    intro n p h
    rcases (by simpa [List.enumFrom] using h : p = (n, a) ∨ p ∈ List.enumFrom (n + 1) as) with
      h1 | h1
    · subst h1; simp
    · exact List.mem_cons_of_mem _ (ih h1)

/-- If no enumerated range admits `x`, the mask loop never overwrites its
accumulator. -/
lemma classifyFrom_all_false (x : ℚ) :
    ∀ (l : List (ℕ × (ℚ × Option ℚ))) (acc : ℕ),
      (∀ p ∈ l, inVfdtRange x p.2 = false) → classifyFrom x acc l = acc := by
  intro l
  induction l with
  | nil => intro acc _; rfl
  | cons hd tl ih =>
    intro acc h
    rcases hd with ⟨i, r⟩
    have hr : inVfdtRange x r = false := h (i, r) (by simp)
    simp only [classifyFrom, hr, Bool.false_eq_true, if_false]
    exact ih acc (fun p hp => h p (List.mem_cons_of_mem _ hp))

/- ------------------------------------------------------------------ -/
/- Claim theorems                                                      -/
/- ------------------------------------------------------------------ -/

/-- C1 (counterexample): with the default threshold `1000`, on the packet
values `[500, 1000, 1001, 2000]` the detector returns no record at all, even
though the record with `2000` packets strictly exceeds the threshold and the
claim demands exactly that record back: `detect_anomalies` compares against
`anomaly_threshold * 60 = 60000`, not against the threshold itself. -/
theorem C1_anomaly_threshold_counterexample :
    detect_anomalies anomaly_threshold df4 = [] ∧
    (⟨3, 2000, none⟩ : Record) ∈ df4.rows ∧ anomaly_threshold < 2000 := by
  decide

/-- C1 (amended): a record is returned as an anomaly if and only if its
packets value strictly exceeds `60` times the configured threshold (the
per-second threshold scaled by the 60-second bin width); the boundary value
itself is excluded. -/
theorem C1_anomaly_scaled_threshold (t : Int) (df : DataFrame) (r : Record) :
    r ∈ detect_anomalies t df ↔ r ∈ df.rows ∧ t * 60 < r.packets := by
  simp [detect_anomalies, List.mem_filter]

/-- C4 (counterexample): building a classifier from a range table with gaps
is not a construction-time error — the table is stored verbatim and
classification proceeds, a value lying in the gap `[10, 20)` ∪ `[30, ∞)`
being classified (as index `0`) rather than rejected. -/
theorem C4_construction_counterexample :
    (VFDTClassifier.mk gapRanges).ranges = gapRanges ∧
    (∀ r ∈ gapRanges, inVfdtRange 15 r = false) ∧
    (VFDTClassifier.mk gapRanges).classifyOne 15 = 0 := by
  refine ⟨rfl, by decide, by decide⟩

/-- C4 (amended): construction never validates the range table; any table is
accepted, and classification proceeds on it, a value covered by no range
keeping the initial class `0`. -/
theorem C4_no_validation (rs : List (ℚ × Option ℚ)) (x : ℚ)
    (h : ∀ r ∈ rs, inVfdtRange x r = false) :
    (VFDTClassifier.mk rs).classifyOne x = 0 := by
  unfold VFDTClassifier.classifyOne
  apply classifyFrom_all_false
  intro p hp
  exact h p.2 (snd_mem_of_mem_enumFrom (by simpa [List.enum] using hp))

/-- C4 (witness): a table whose ranges overlap yet leave `25` uncovered is
accepted and classifies `25` as `0`. -/
theorem C4_no_validation_witness :
    (VFDTClassifier.mk [(0, some 10), ((5 : ℚ), some 20)]).classifyOne 25 = 0 :=
  C4_no_validation [(0, some 10), ((5 : ℚ), some 20)] 25 (by decide)

/-- C5 (counterexample): `classify_traffic` does not leave the caller's frame
unchanged — after the call the frame of `dfFresh` carries a `traffic_class`
column it did not have before. -/
theorem C5_classify_mutates_frame : (classify_traffic dfFresh).1 ≠ dfFresh := by
  intro h
  have h2 := congrArg DataFrame.traffic_class h
  simp only [classify_traffic, dfFresh] at h2
  rcases hq : qcut4 [(1 : ℚ), 2, 3, 4] with _ | qs <;> simp [hq] at h2

/-- C5 (amended): classification preserves every record — the `timestamp`,
`packets` and `bytes` fields of the caller's rows are untouched and no row is
added, removed or reordered — but it is not free of side effects: the
caller's frame always acquires a `traffic_class` column. -/
theorem C5_classify_preserves_rows (df : DataFrame) :
    (classify_traffic df).1.rows = df.rows ∧
    (classify_traffic df).1.traffic_class ≠ none := by
  rcases hq : qcut4 (df.rows.map fun r => (r.packets : ℚ)) with _ | qs <;>
    simp [classify_traffic, hq]

/-- C7 (counterexample): applied to an empty record set,
`calculate_statistics` does not produce a "no data" result — `df['packets']`
on a frame with no rows (hence no `packets` column) raises `KeyError`, which
escapes to the pipeline's generic exception handler. -/
theorem C7_empty_stats_counterexample :
    calculate_statistics { rows := [], traffic_class := none, vfdt_class := none } =
      Except.error "KeyError: packets" := by
  rfl

/-- C7 (amended): on every empty record set the statistics summarizer raises
`KeyError` (the empty frame has no `packets` column); the distinct "no data"
handling lives in the parser, not here, and this error reaches the caller's
generic handler rather than producing a dedicated sentinel. -/
theorem C7_empty_stats_keyerror (df : DataFrame) (h : df.rows = []) :
    calculate_statistics df = Except.error "KeyError: packets" := by
  simp [calculate_statistics, h]

/-- C7 (witness): the amended statement applied to a concrete empty frame. -/
theorem C7_empty_stats_witness :
    calculate_statistics { rows := [], traffic_class := some [], vfdt_class := some [] } =
      Except.error "KeyError: packets" :=
  C7_empty_stats_keyerror _ rfl

/-- C9 (counterexample): the skipped-line count is not surfaced to the
caller: the input with three extra skipped lines (a comment, a one-field
line, and a line whose timestamp fails to parse) yields a result identical
to the clean input, so the caller cannot recover how many lines were
skipped. -/
theorem C9_skip_count_not_surfaced :
    parse_rwcount_output P0 lineGood = parse_rwcount_output P0 linesMixed ∧
    processLine P0 ['b', 'a', 'd'] = none ∧
    processLine P0 ['x', '|', 'y'] = none ∧
    (parse_rwcount_output P0 lineGood).isSome = true := by
  decide

/-- C9 (amended): for every choice of the external scalar parsers, comment
lines prefixed `#` are always skipped, and any line the loop skips (comment,
too few fields, or failed field parse) leaves the records gathered from the
remaining lines unchanged — parsing continues instead of failing fatally;
only the per-line warnings, never a skipped-line count, record the losses. -/
theorem C9_parser_skips_and_continues :
    (∀ (P : LineParsers) (s : List Char), processLine P ('#' :: s) = none) ∧
    (∀ (P : LineParsers) (pre post : List (List Char)) (line : List Char),
      processLine P line = none →
      parseRecords P (pre ++ line :: post) = parseRecords P (pre ++ post)) := by
  constructor
  · intro P s; simp [processLine]
  · intro P pre post line h
    simp [parseRecords, List.filterMap_append, List.filterMap_cons, h]

/-- C9 (witness): the amended statement applied to the concrete parser `P0`,
a concrete comment line, and a concrete unparseable line between two good
lines. -/
theorem C9_parser_witness :
    processLine P0 ('#' :: ['z']) = none ∧
    parseRecords P0 ([['1', '|', '2']] ++ ['x', '|', 'y'] :: [['3', '|', '4']]) =
      parseRecords P0 ([['1', '|', '2']] ++ [['3', '|', '4']]) :=
  ⟨C9_parser_skips_and_continues.1 P0 ['z'],
   C9_parser_skips_and_continues.2 P0 [['1', '|', '2']] [['3', '|', '4']]
     ['x', '|', 'y'] (by decide)⟩

/-- C10: every input value lying in none of the configured ranges — in
particular every negative value — is assigned class index `0` by
`VFDTClassifier.classify`, the same index as the first ("Very Low") range:
the value `5`, squarely inside Very Low, also gets `0`, so out-of-domain
inputs are indistinguishable from lowest-range values. -/
theorem C10_out_of_range_class_zero :
    (∀ x : ℚ, (∀ r ∈ VFDTClassifier.init.ranges, inVfdtRange x r = false) →
      VFDTClassifier.init.classifyOne x = 0) ∧
    VFDTClassifier.init.classifyOne 5 = 0 := by
  constructor
  · intro x h
    unfold VFDTClassifier.classifyOne
    apply classifyFrom_all_false
    intro p hp
    exact h p.2 (snd_mem_of_mem_enumFrom (by simpa [List.enum] using hp))
  · decide

/-- C10 (witness): the negative value `-1` lies in no configured range and is
classified `0`. -/
theorem C10_out_of_range_witness : VFDTClassifier.init.classifyOne (-1) = 0 :=
  C10_out_of_range_class_zero.1 (-1) (by decide)

/-- Closed form of the hard-coded classifier: the mask loop on the five
configured ranges computes the nested threshold test. -/
lemma init_classifyOne_char (x : ℚ) :
    VFDTClassifier.init.classifyOne x =
      if 1000 ≤ x then 4
      else if 500 ≤ x then 3
      else if 100 ≤ x then 2
      else if 10 ≤ x then 1
      else 0 := by
  have e : VFDTClassifier.init.ranges.enum =
      [(0, ((0 : ℚ), some 10)), (1, ((10 : ℚ), some 100)), (2, ((100 : ℚ), some 500)),
       (3, ((500 : ℚ), some 1000)), (4, ((1000 : ℚ), none))] := rfl
  rw [VFDTClassifier.classifyOne, e]
  simp only [classifyFrom, inVfdtRange, Bool.and_eq_true, decide_eq_true_eq, Bool.and_true,
    ite_self]
  rcases le_or_lt 1000 x with h4 | h4
  · have a3 : (500 : ℚ) ≤ x := by linarith
    have a2 : (100 : ℚ) ≤ x := by linarith
    have a1 : (10 : ℚ) ≤ x := by linarith
    have n3 : ¬ x < 1000 := by linarith
    simp [h4, a3, a2, a1, n3]
  · have n4 : ¬ (1000 : ℚ) ≤ x := by linarith
    rcases le_or_lt 500 x with h3 | h3
    · have b : x < 1000 := h4
      have n2 : ¬ x < 500 := by linarith
      simp [n4, h3, b, n2]
    · have n3 : ¬ (500 : ℚ) ≤ x := by linarith
      rcases le_or_lt 100 x with h2 | h2
      · have b : x < 500 := h3
        have n1 : ¬ x < 100 := by linarith
        simp [n4, n3, h2, b, n1]
      · have n2 : ¬ (100 : ℚ) ≤ x := by linarith
        rcases le_or_lt 10 x with h1 | h1
        · have b : x < 100 := h2
          have n0 : ¬ x < 10 := by linarith
          simp [n4, n3, n2, h1, b, n0]
        · have n1 : ¬ (10 : ℚ) ≤ x := by linarith
          simp [n4, n3, n2, n1]

/-- C6: the fixed-range classifier of `vfdt.py` is monotonic — for all input
values `x ≤ y`, the class index assigned to `y` is at least the one assigned
to `x`. -/
theorem C6_classify_monotone (x y : ℚ) (h : x ≤ y) :
    VFDTClassifier.init.classifyOne x ≤ VFDTClassifier.init.classifyOne y := by
  rw [init_classifyOne_char, init_classifyOne_char]
  split_ifs <;> first | omega | (exfalso; linarith)

/-- C6 (witness): monotonicity applied at `5 ≤ 2000`. -/
theorem C6_classify_monotone_witness :
    VFDTClassifier.init.classifyOne 5 ≤ VFDTClassifier.init.classifyOne 2000 :=
  C6_classify_monotone 5 2000 (by norm_num)

/-- C2 (counterexample): the non-negative value `0` is assigned no label by
the 4-class table of `classify_traffic` — `pd.cut` on bins
`[0, 601, 6001, 60001, inf]` uses left-open intervals, so `0` falls below the
first interval and gets `NaN` — while the 5-class table does give `0` exactly
one label, so the claim fails for one of the two tables. -/
theorem C2_zero_unlabeled_counterexample :
    (0 : ℚ) ≤ 0 ∧ cutIdx trafficBins (0 : ℚ) = none ∧
    vfdtDefaultRanges.countP (fun r => inVfdtRange 0 r) = 1 := by
  decide

/-- C2 (amended): the 5-class table of `VFDTClassifier` assigns exactly one
class to every non-negative value; the 4-class table of `classify_traffic`
assigns exactly one label to every strictly positive value, `0` alone being
left unlabeled. -/
theorem C2_total_labeling :
    (∀ x : ℚ, 0 ≤ x →
      VFDTClassifier.init.ranges.countP (fun r => inVfdtRange x r) = 1) ∧
    (∀ x : ℚ, 0 < x → (cutIdx trafficBins x).isSome = true) := by
  constructor
  · intro x hx
    have e : VFDTClassifier.init.ranges =
        [((0 : ℚ), some 10), ((10 : ℚ), some 100), ((100 : ℚ), some 500),
         ((500 : ℚ), some 1000), ((1000 : ℚ), none)] := rfl
    rw [e]
    simp only [List.countP_cons, List.countP_nil, inVfdtRange, Bool.and_eq_true,
      decide_eq_true_eq, Bool.and_true]
    rcases le_or_lt 10 x with h1 | h1
    · rcases le_or_lt 100 x with h2 | h2
      · rcases le_or_lt 500 x with h3 | h3
        · rcases le_or_lt 1000 x with h4 | h4
          · have n3 : ¬ x < 1000 := by linarith
            have n2 : ¬ x < 500 := by linarith
            have n1 : ¬ x < 100 := by linarith
            have n0 : ¬ x < 10 := by linarith
            simp [h4, n3, n2, n1, n0]
          · have n2 : ¬ x < 500 := by linarith
            have n1 : ¬ x < 100 := by linarith
            have n0 : ¬ x < 10 := by linarith
            have m4 : ¬ (1000 : ℚ) ≤ x := by linarith
            simp [h3, h4, m4, n2, n1, n0]
        · have n1 : ¬ x < 100 := by linarith
          have n0 : ¬ x < 10 := by linarith
          have m4 : ¬ (1000 : ℚ) ≤ x := by linarith
          have m3 : ¬ (500 : ℚ) ≤ x := by linarith
          simp [h2, h3, m4, m3, n1, n0]
      · have n0 : ¬ x < 10 := by linarith
        have m4 : ¬ (1000 : ℚ) ≤ x := by linarith
        have m3 : ¬ (500 : ℚ) ≤ x := by linarith
        have m2 : ¬ (100 : ℚ) ≤ x := by linarith
        simp [h1, h2, m4, m3, m2, n0]
    · have m4 : ¬ (1000 : ℚ) ≤ x := by linarith
      have m3 : ¬ (500 : ℚ) ≤ x := by linarith
      have m2 : ¬ (100 : ℚ) ≤ x := by linarith
      have m1 : ¬ (10 : ℚ) ≤ x := by linarith
      simp [hx, h1, m4, m3, m2, m1]
  · intro x hx
    have e : trafficBins = [some 0, some 601, some 6001, some 60001, none] := rfl
    rw [cutIdx, e]
    simp only [cutIdxAux, Bool.and_eq_true, decide_eq_true_eq, Bool.and_true]
    rcases le_or_lt x 601 with h1 | h1
    · simp [hx, h1]
    · have n1 : ¬ x ≤ 601 := by linarith
      rcases le_or_lt x 6001 with h2 | h2
      · simp [hx, h1, h2, n1]
      · have n2 : ¬ x ≤ 6001 := by linarith
        rcases le_or_lt x 60001 with h3 | h3
        · simp [hx, h1, h2, h3, n1, n2]
        · have n3 : ¬ x ≤ 60001 := by linarith
          simp [hx, h1, h2, h3, n1, n2, n3]

/-- C2 (witness): the amended statement applied at the value `5`. -/
theorem C2_total_labeling_witness :
    VFDTClassifier.init.ranges.countP (fun r => inVfdtRange 5 r) = 1 ∧
    (cutIdx trafficBins 5).isSome = true :=
  ⟨C2_total_labeling.1 5 (by norm_num), C2_total_labeling.2 5 (by norm_num)⟩

/-- `getD` on a constant list yields the constant inside bounds and the
default outside. -/
lemma getD_replicate {α : Type} (c d : α) :
    ∀ (n i : ℕ), (List.replicate n c).getD i d = if i < n then c else d := by
  intro n
  induction n with
  | zero => intro i; simp
  | succ m ih =>
    intro i
    cases i with
    | zero => simp [List.replicate]
    | succ j => simpa [List.replicate, Nat.succ_lt_succ_iff] using ih j

/-- Inserting the repeated constant into a constant run extends the run. -/
lemma insertQ_replicate (c : ℚ) (k : ℕ) :
    insertQ c (List.replicate k c) = List.replicate (k + 1) c := by
  cases k with
  | zero => rfl
  | succ j => simp [List.replicate, insertQ]

/-- Sorting a constant list is the identity. -/
lemma sortQ_replicate (c : ℚ) : ∀ n, sortQ (List.replicate n c) = List.replicate n c := by
  intro n
  induction n with
  | zero => rfl
  | succ m ih =>
    rw [List.replicate_succ]
    rw [show sortQ (c :: List.replicate m c) = insertQ c (sortQ (List.replicate m c)) from rfl]
    rw [ih, insertQ_replicate, List.replicate_succ]

/-- Every interpolated quantile of a constant sample is the constant. -/
lemma quantileLin_replicate (n : ℕ) (hn : 1 ≤ n) (c p : ℚ) (hp0 : 0 ≤ p) (hp1 : p ≤ 1) :
    quantileLin (List.replicate n c) p = c := by
  have hn1 : (1 : ℚ) ≤ (n : ℚ) := by exact_mod_cast hn
  have hh0 : 0 ≤ p * ((n : ℚ) - 1) := mul_nonneg hp0 (by linarith)
  have hhub : p * ((n : ℚ) - 1) ≤ (n : ℚ) - 1 := by nlinarith
  have hfl : ⌊p * ((n : ℚ) - 1)⌋ < (n : ℤ) := Int.floor_lt.2 (by push_cast; linarith)
  have hi : (⌊p * ((n : ℚ) - 1)⌋).toNat < n := by omega
  simp only [quantileLin, List.length_replicate, getD_replicate, if_pos hi]
  have h2 : (if (⌊p * ((n : ℚ) - 1)⌋).toNat + 1 < n then c else c) = c := by
    split_ifs <;> rfl
  rw [h2]
  ring

/-- The quartile edges of a constant sample all coincide, so the duplicate
bin-edge check of `pd.qcut` fires. -/
lemma qcut4_replicate (n : ℕ) (hn : 1 ≤ n) (c : ℚ) :
    qcut4 (List.replicate n c) = none := by
  have e : quartilePoints.map (quantileLin (sortQ (List.replicate n c))) = [c, c, c, c, c] := by
    rw [sortQ_replicate]
    simp only [quartilePoints, List.map]
    refine congrArg₂ _ ?_ (congrArg₂ _ ?_ (congrArg₂ _ ?_ (congrArg₂ _ ?_ (congrArg₂ _ ?_ rfl)))) <;>
      exact quantileLin_replicate n hn c _ (by norm_num) (by norm_num)
  have hnd : ¬ ([c, c, c, c, c] : List ℚ).Nodup := by simp
  simp only [qcut4, e, if_neg hnd]

/-- C3 (counterexample): quantile classification of two identical values is
an error, not a same-bucket assignment — both quartile edge lists collapse
and `pd.qcut` raises `ValueError: Bin edges must be unique`, modelled by the
`none` result. -/
theorem C3_qcut_identical_counterexample : qcut4 [(5 : ℚ), 5] = none := by
  rw [show [(5 : ℚ), 5] = List.replicate 2 5 from rfl]
  exact qcut4_replicate 2 (by norm_num) 5

/-- C3 (amended): for every `N ≥ 1`, quantile classification of `N` identical
values fails with the duplicate-bin-edges error instead of assigning the
records to a common bucket. -/
theorem C3_qcut_identical_error (n : ℕ) (hn : 1 ≤ n) (c : ℚ) :
    qcut4 (List.replicate n c) = none :=
  qcut4_replicate n hn c

/-- C3 (witness): the amended statement at three copies of `7`. -/
theorem C3_qcut_identical_witness : qcut4 (List.replicate 3 (7 : ℚ)) = none :=
  C3_qcut_identical_error 3 (by norm_num) 7

/-- C8: on packet values `[10, 20, 30]` the statistics summarizer returns
sum `60`, mean `20`, max `30`, min `10`, record count `3`, and a standard
deviation that is the sample one (divisor `n - 1`): the stored radicand is
`((10-20)^2 + 0 + (30-20)^2) / 2 = 100`, whose nonnegative square root is
`10` (the population divisor would have given `200/3` instead). -/
theorem C8_statistics_example :
    calculate_statistics df3 =
      Except.ok { total_packets := 60, total_bytes := 0, avg_packets_per_min := 20,
                  max_packets_per_min := 30, min_packets_per_min := 10,
                  std_dev_sq := some 100, total_minutes := 3 } ∧
    sqrtEq 100 10 := by
  constructor
  · simp only [calculate_statistics, df3]
    norm_num [Stats.mk.injEq, List.foldl, List.map, max_def, min_def]
    intro h
    simp at h
  · exact ⟨by norm_num, by norm_num⟩
